import Mathlib

/-!
Shallow embedding of the interaction state machine of
react-fullpage-scroller (src/lib/FullPage.tsx, src/lib/Section.tsx).

Pages are indexed by integers; pointer coordinates, wheel deltas and the
drag delta are rationals (the source works with JS numbers, and every
constant involved — 0.35, 0.15, 30 — is rational); timestamps are
integers (Date.now returns integer milliseconds).
-/

namespace FullPageScroller

/-- The React state owned by the FullPage component:
`currentPage` / `isScrolling` (FullPage.tsx lines 33-34). -/
structure PageState where
  currentPage : Int
  isScrolling : Bool
deriving DecidableEq, Repr

/-- Primitive observable actions performed by `scrollToPage`
(FullPage.tsx lines 72-90), in source order: the `onLeave` callback,
then `setIsScrolling(true)`, then `setCurrentPage(target)`. -/
inductive Action where
  | leave (origin dest : Int)
  | setScrolling (b : Bool)
  | setPage (p : Int)
deriving DecidableEq, Repr

/-- The ordered list of actions `scrollToPage(targetPage)` performs
(FullPage.tsx lines 72-90): nothing when `targetPage < 0 ||
targetPage >= count` or when `isScrolling`; otherwise the `onLeave`
call followed by the two state mutations, in that source order. -/
def scrollToPageActions (count : Int) (s : PageState) (targetPage : Int) :
    List Action :=
  if targetPage < 0 ∨ count ≤ targetPage then []
  else if s.isScrolling then []
  else [Action.leave s.currentPage targetPage,
        Action.setScrolling true,
        Action.setPage targetPage]

/-- Effect of one primitive action on the component state. -/
def applyAction (s : PageState) (a : Action) : PageState :=
  match a with
  | Action.leave _ _ => s
  | Action.setScrolling b => { s with isScrolling := b }
  | Action.setPage p => { s with currentPage := p }

/-- `scrollToPage` as a state transformer: the fold of its action trace.
(The `setTimeout` that later clears the lock is modelled separately:
as the `unlock` event of the event machine, and with explicit
timestamps in the timed model below.) -/
def scrollToPage (count : Int) (s : PageState) (targetPage : Int) :
    PageState :=
  (scrollToPageActions count s targetPage).foldl applyAction s

/-- `next()` (FullPage.tsx lines 92-95). -/
def next (count : Int) (s : PageState) : PageState :=
  scrollToPage count s (s.currentPage + 1)

/-- `prev()` (FullPage.tsx lines 96-99). -/
def prev (count : Int) (s : PageState) : PageState :=
  scrollToPage count s (s.currentPage - 1)

/-- `goTo(page)` (FullPage.tsx lines 100-103). -/
def goTo (count : Int) (s : PageState) (page : Int) : PageState :=
  scrollToPage count s page

/-! ## Gesture tracker (drag logic, FullPage.tsx lines 176-287) -/

/-- The refs that hold gesture state (FullPage.tsx lines 62-69):
`isDragging`, `startPos`, `startTime`, `currentDelta`, `latestDragPos`,
and the pending-requestAnimationFrame flag (`rafRef !== null`). -/
structure DragState where
  isDragging : Bool
  startPos : ℚ
  startTime : Int
  currentDelta : ℚ
  latestDragPos : Option (ℚ × ℚ)
  rafPending : Bool
deriving DecidableEq, Repr

/-- Gesture refs before any gesture. -/
def initDrag : DragState :=
  ⟨false, 0, 0, 0, Option.none, false⟩

/-- Edge resistance applied inside `updateDragVisuals`
(FullPage.tsx lines 203-212): the raw delta is multiplied by 0.35
when on the first page pulling in the retreat direction or on the
last page pulling in the advance direction; otherwise kept as is. -/
def effectiveDelta (count currentPage : Int) (delta : ℚ) : ℚ :=
  if (currentPage = 0 ∧ 0 < delta) ∨ (currentPage = count - 1 ∧ delta < 0)
  then delta * (35 / 100)
  else delta

/-- `updateDragVisuals` (FullPage.tsx lines 195-225): the body of the
scheduled animation frame.  When a gesture is active and a sample is
buffered, it recomputes `currentDelta` from the latest sample with edge
resistance; in every case it clears the pending-frame flag.  (The DOM
transform write is rendering and is not modelled.) -/
def updateDragVisuals (isVertical : Bool) (count currentPage : Int)
    (d : DragState) : DragState :=
  match d.latestDragPos with
  | Option.none => { d with rafPending := false }
  | Option.some (x, y) =>
    if d.isDragging then
      let currentPos := if isVertical then y else x
      let delta := currentPos - d.startPos
      { d with currentDelta := effectiveDelta count currentPage delta,
               rafPending := false }
    else
      { d with rafPending := false }

/-- `handleDragStart` (FullPage.tsx lines 178-192): refused while the
transition lock is held or when the pointer went down on an interactive
control; otherwise captures origin coordinate and timestamp, zeroes the
delta and buffers the first sample. -/
def handleDragStart (isVertical : Bool) (isScrolling onInteractive : Bool)
    (x y : ℚ) (t : Int) (d : DragState) : DragState :=
  if isScrolling then d
  else if onInteractive then d
  else
    { isDragging := true,
      startPos := if isVertical then y else x,
      startTime := t,
      currentDelta := 0,
      latestDragPos := Option.some (x, y),
      rafPending := d.rafPending }

/-- `handleDragMove` (FullPage.tsx lines 227-236): buffers the latest
sample and schedules an animation frame if none is pending. -/
def handleDragMove (x y : ℚ) (d : DragState) : DragState :=
  if d.isDragging then
    { d with latestDragPos := Option.some (x, y), rafPending := true }
  else d

/-- The three possible outcomes of a gesture end. -/
inductive Decision where
  | advance
  | retreat
  | cancel
deriving DecidableEq, Repr

/-- The decision made by `handleDragEnd` (FullPage.tsx lines 248-278)
from the final `currentDelta`, the elapsed time (`timeElapsed || 1`
guards the division) and the viewport extent: past-threshold or
valid-flick commits, and a committed gesture advances or retreats only
away from the respective boundary, otherwise it cancels. -/
def dragEndDecision (count currentPage : Int) (delta : ℚ)
    (timeElapsed : Int) (viewportSize : ℚ) : Decision :=
  let velocity := |delta| / (if timeElapsed = 0 then 1 else (timeElapsed : ℚ))
  let threshold := viewportSize * (15 / 100)
  let isValidFlick := (35 : ℚ) / 100 < velocity ∧ (30 : ℚ) < |delta|
  let isPastThreshold := threshold < |delta|
  if isPastThreshold ∨ isValidFlick then
    if delta < 0 ∧ currentPage < count - 1 then Decision.advance
    else if 0 < delta ∧ 0 < currentPage then Decision.retreat
    else Decision.cancel
  else Decision.cancel

/-! ## Discrete input adapters (FullPage.tsx lines 117-174) -/

/-- Which navigation call a wheel event performs. -/
inductive WheelAction where
  | callNext
  | callPrev
  | noop
deriving DecidableEq, Repr

/-- `handleWheel` (FullPage.tsx lines 118-135) reduced to the call it
makes: ignored while a gesture is active or the lock is held; the axis
delta is `deltaY` on a vertical layout and `deltaX` falling back to
`deltaY` on a horizontal one; strict ±30 thresholds select the call. -/
def wheelAction (isVertical isDragging isScrolling : Bool)
    (deltaX deltaY : ℚ) : WheelAction :=
  if isDragging then WheelAction.noop
  else if isScrolling then WheelAction.noop
  else
    let delta := if isVertical then deltaY
                 else if deltaX ≠ 0 then deltaX else deltaY
    if (30 : ℚ) < delta then WheelAction.callNext
    else if delta < (-30 : ℚ) then WheelAction.callPrev
    else WheelAction.noop

/-- Keys that trigger `next()` (FullPage.tsx lines 155-157). -/
def nextKeys (isVertical : Bool) : List String :=
  if isVertical then ["ArrowDown", "PageDown", " "]
  else ["ArrowRight", "ArrowDown", "PageDown", " "]

/-- Keys that trigger `prev()` (FullPage.tsx lines 159-161). -/
def prevKeys (isVertical : Bool) : List String :=
  if isVertical then ["ArrowUp", "PageUp"]
  else ["ArrowLeft", "ArrowUp", "PageUp"]

/-! ## The whole interaction machine -/

/-- Full component state: the React state plus the gesture refs. -/
structure MachineState where
  page : PageState
  drag : DragState
deriving DecidableEq, Repr

/-- Initial state: `useState(0)`, `useState(false)`, idle gesture refs. -/
def initState : MachineState :=
  ⟨⟨0, false⟩, initDrag⟩

/-- One input event delivered to the component.  `apiNext`/`apiPrev`/
`apiGoTo` are the imperative-handle calls; `wheel`, `key`, `dragStart`,
`dragMove`, `dragEnd` are the DOM handlers; `frame` is a scheduled
animation-frame callback firing; `unlock` is the `setTimeout` from a
committed transition firing and clearing `isScrolling`. -/
inductive Event where
  | apiNext
  | apiPrev
  | apiGoTo (target : Int)
  | wheel (deltaX deltaY : ℚ)
  | key (k : String)
  | dragStart (x y : ℚ) (t : Int) (onInteractive : Bool)
  | dragMove (x y : ℚ)
  | frame
  | dragEnd (t : Int) (viewportSize : ℚ)
  | unlock
deriving DecidableEq, Repr

/-- Lift `scrollToPage` to the whole machine state. -/
def scrollToPageM (count : Int) (s : MachineState) (target : Int) :
    MachineState :=
  { s with page := scrollToPage count s.page target }

/-- `handleDragEnd` (FullPage.tsx lines 238-278) as a machine step:
a no-op outside a gesture; otherwise it ends the gesture, cancels the
pending animation frame, decides on `currentDelta`, and either calls
`scrollToPage(currentPage ± 1)` or bounces back (`resetPosition`, a
pure rendering call). -/
def handleDragEnd (count : Int) (s : MachineState) (t : Int)
    (viewportSize : ℚ) : MachineState :=
  if s.drag.isDragging then
    let d := { s.drag with isDragging := false, rafPending := false }
    let s1 : MachineState := { s with drag := d }
    match dragEndDecision count s.page.currentPage s.drag.currentDelta
        (t - s.drag.startTime) viewportSize with
    | Decision.advance => scrollToPageM count s1 (s1.page.currentPage + 1)
    | Decision.retreat => scrollToPageM count s1 (s1.page.currentPage - 1)
    | Decision.cancel => s1
  else s

/-- One step of the interaction machine, dispatching each event to the
corresponding handler of FullPage.tsx. -/
def stepEvent (isVertical : Bool) (count : Int) (s : MachineState)
    (e : Event) : MachineState :=
  match e with
  | Event.apiNext => scrollToPageM count s (s.page.currentPage + 1)
  | Event.apiPrev => scrollToPageM count s (s.page.currentPage - 1)
  | Event.apiGoTo target => scrollToPageM count s target
  | Event.wheel dx dy =>
    match wheelAction isVertical s.drag.isDragging s.page.isScrolling dx dy with
    | WheelAction.callNext => scrollToPageM count s (s.page.currentPage + 1)
    | WheelAction.callPrev => scrollToPageM count s (s.page.currentPage - 1)
    | WheelAction.noop => s
  | Event.key k =>
    if s.drag.isDragging then s
    else if k ∈ nextKeys isVertical then
      scrollToPageM count s (s.page.currentPage + 1)
    else if k ∈ prevKeys isVertical then
      scrollToPageM count s (s.page.currentPage - 1)
    else s
  | Event.dragStart x y t onInteractive =>
    { s with drag := handleDragStart isVertical s.page.isScrolling
                       onInteractive x y t s.drag }
  | Event.dragMove x y => { s with drag := handleDragMove x y s.drag }
  | Event.frame =>
    if s.drag.rafPending then
      { s with drag := updateDragVisuals isVertical count
                         s.page.currentPage s.drag }
    else s
  | Event.dragEnd t viewportSize => handleDragEnd count s t viewportSize
  | Event.unlock => { s with page := { s.page with isScrolling := false } }

/-- Run the machine over a list of events. -/
def runEvents (isVertical : Bool) (count : Int) (evs : List Event)
    (s : MachineState) : MachineState :=
  evs.foldl (stepEvent isVertical count) s

/-! ## Timed page controller (for the lock-release timer) -/

/-- Timed view of the page controller: a committed transition at time
`t` sets `lockUntil := t + duration` — the `setTimeout(.., duration)`
scheduled at commit (FullPage.tsx lines 85-87) — and `isScrolling`
observed at time `u` is `u < lockUntil`. -/
structure TimedState where
  currentPage : Int
  lockUntil : Int
deriving DecidableEq, Repr

/-- The transition lock as observed at time `t`: held until the timer
scheduled `duration` after the commit has fired. -/
def isScrollingAt (s : TimedState) (t : Int) : Bool :=
  decide (t < s.lockUntil)

/-- `scrollToPage` with explicit call time: same guards as the untimed
version, and a commit holds the lock for exactly `duration` from the
call.  The second component reports whether the call committed. -/
def scrollToPageAt (count duration : Int) (s : TimedState)
    (t targetPage : Int) : TimedState × Bool :=
  if targetPage < 0 ∨ count ≤ targetPage then (s, false)
  else if isScrollingAt s t then (s, false)
  else (⟨targetPage, t + duration⟩, true)

/-- `next()` with explicit call time. -/
def nextAt (count duration : Int) (s : TimedState) (t : Int) :
    TimedState × Bool :=
  scrollToPageAt count duration s t (s.currentPage + 1)

/-! ## Children partition (FullPage.tsx lines 39-58, Section.tsx line 24) -/

/-- A child as seen by the partition logic: whether it is a valid React
element, and whether its type carries the `isFullPageSection` static
flag. -/
structure ChildNode where
  isValidElement : Bool
  isFullPageSection : Bool
deriving DecidableEq, Repr

/-- The test on line 46-49 of FullPage.tsx: a child goes into the
sliding container when it is a valid element whose type carries the
flag. -/
def isSlide (c : ChildNode) : Bool :=
  c.isValidElement && c.isFullPageSection

/-- A child produced by the `Section` component: a valid element whose
type carries `isFullPageSection = true` (Section.tsx line 24). -/
def sectionChild : ChildNode :=
  ⟨true, true⟩

/-- The `forEach` push loop of FullPage.tsx lines 44-54, producing
`(slides, overlays)` in order. -/
def partitionChildren (cs : List ChildNode) :
    List ChildNode × List ChildNode :=
  cs.foldl
    (fun p c => if isSlide c then (p.1 ++ [c], p.2) else (p.1, p.2 ++ [c]))
    ([], [])

/-- `count = slides.length` (FullPage.tsx line 58). -/
def countOf (cs : List ChildNode) : Nat :=
  (partitionChildren cs).1.length

/-! ## Specification-side definitions -/

/-- The range invariant on the authoritative page. -/
def Inv (count : Int) (s : MachineState) : Prop :=
  0 ≤ s.page.currentPage ∧ s.page.currentPage ≤ count - 1

/-- One `next()` (`b = true`) or `prev()` (`b = false`) issued after the
prior transition's duration has elapsed: the timer has cleared
`isScrolling` before the call runs. -/
def navEvents (b : Bool) : List Event :=
  [Event.unlock, if b then Event.apiNext else Event.apiPrev]

/-- A whole sequence of such well-spaced `next()`/`prev()` calls, run
from the initial state. -/
def runNav (isVertical : Bool) (count : Int) (ops : List Bool) :
    MachineState :=
  runEvents isVertical count (ops.flatMap navEvents) initState

/-- The per-step clamp the spec describes: `next` saturates at
`count - 1`, `prev` saturates at `0`. -/
def clampStep (count p : Int) (b : Bool) : Int :=
  if b then min (p + 1) (count - 1) else max (p - 1) 0

/-! ## Lemmas -/

/-- Closed form of `scrollToPage`: rejected requests leave the state
untouched, a committed one moves to the target with the lock held. -/
lemma scrollToPage_eq (count : Int) (s : PageState) (t : Int) :
    scrollToPage count s t =
      if t < 0 ∨ count ≤ t then s
      else if s.isScrolling then s
      else ⟨t, true⟩ := by
  unfold scrollToPage scrollToPageActions
  split
  · rfl
  · split
    · rfl
    · simp [applyAction]

/-- The committed page stays in range. -/
lemma scrollToPage_inRange (count : Int) (s : PageState) (t : Int)
    (h0 : 0 ≤ s.currentPage) (h1 : s.currentPage ≤ count - 1) :
    0 ≤ (scrollToPage count s t).currentPage ∧
      (scrollToPage count s t).currentPage ≤ count - 1 := by
  rw [scrollToPage_eq]
  split
  · exact ⟨h0, h1⟩
  · split
    · exact ⟨h0, h1⟩
    · rename_i hrange _
      push_neg at hrange
      refine ⟨hrange.1, ?_⟩
      show t ≤ count - 1
      omega

/-- `scrollToPageM` preserves the range invariant. -/
lemma scrollToPageM_inv (count : Int) (s : MachineState) (t : Int)
    (h : Inv count s) : Inv count (scrollToPageM count s t) :=
  scrollToPage_inRange count s.page t h.1 h.2

/-- Every event of the machine preserves the range invariant. -/
lemma stepEvent_inv (iv : Bool) (count : Int) (e : Event)
    (s : MachineState) (h : Inv count s) :
    Inv count (stepEvent iv count s e) := by
  cases e with
  | apiNext => exact scrollToPageM_inv _ _ _ h
  | apiPrev => exact scrollToPageM_inv _ _ _ h
  | apiGoTo t => exact scrollToPageM_inv _ _ _ h
  | wheel dx dy =>
    simp only [stepEvent]
    cases hw : wheelAction iv s.drag.isDragging s.page.isScrolling dx dy <;>
      simp only
    · exact scrollToPageM_inv _ _ _ h
    · exact scrollToPageM_inv _ _ _ h
    · exact h
  | key k =>
    simp only [stepEvent]
    split
    · exact h
    · split
      · exact scrollToPageM_inv _ _ _ h
      · split
        · exact scrollToPageM_inv _ _ _ h
        · exact h
  | dragStart x y t onInteractive => exact h
  | dragMove x y => exact h
  | frame =>
    simp only [stepEvent]
    split
    · exact h
    · exact h
  | dragEnd t v =>
    simp only [stepEvent]
    unfold handleDragEnd
    split
    · split
      · exact scrollToPageM_inv _ _ _ h
      · exact scrollToPageM_inv _ _ _ h
      · exact h
    · exact h
  | unlock => exact h

/-- Any event sequence preserves the range invariant. -/
lemma runEvents_inv (iv : Bool) (count : Int) (evs : List Event)
    (s : MachineState) (h : Inv count s) :
    Inv count (runEvents iv count evs s) := by
  induction evs generalizing s with
  | nil => exact h
  | cons e evs ih => exact ih _ (stepEvent_inv iv count e s h)

/-- One well-spaced `next()`/`prev()` lands on the clamped page and
keeps the invariant. -/
lemma navEvents_step (iv : Bool) (count : Int) (b : Bool)
    (s : MachineState) (h : Inv count s) :
    (runEvents iv count (navEvents b) s).page.currentPage
      = clampStep count s.page.currentPage b ∧
    Inv count (runEvents iv count (navEvents b) s) := by
  obtain ⟨h0, h1⟩ := h
  cases b <;>
      simp only [navEvents, runEvents, List.foldl, stepEvent, scrollToPageM,
        clampStep, scrollToPage_eq, Bool.false_eq_true, if_true, if_false,
        ite_true, ite_false]
  · split
    · refine ⟨?_, h0, h1⟩
      show s.page.currentPage = max (s.page.currentPage - 1) 0
      rename_i hcond
      omega
    · rename_i hcond
      push_neg at hcond
      refine ⟨?_, ?_, ?_⟩
      · show s.page.currentPage - 1 = max (s.page.currentPage - 1) 0
        omega
      · show (0 : Int) ≤ s.page.currentPage - 1
        omega
      · show s.page.currentPage - 1 ≤ count - 1
        omega
  · split
    · refine ⟨?_, h0, h1⟩
      show s.page.currentPage = min (s.page.currentPage + 1) (count - 1)
      rename_i hcond
      omega
    · rename_i hcond
      push_neg at hcond
      refine ⟨?_, ?_, ?_⟩
      · show s.page.currentPage + 1 = min (s.page.currentPage + 1) (count - 1)
        omega
      · show (0 : Int) ≤ s.page.currentPage + 1
        omega
      · show s.page.currentPage + 1 ≤ count - 1
        omega

/-- The well-spaced sequence folds the clamp step. -/
lemma runNav_loop (iv : Bool) (count : Int) (ops : List Bool)
    (s : MachineState) (h : Inv count s) :
    (runEvents iv count (ops.flatMap navEvents) s).page.currentPage
      = ops.foldl (clampStep count) s.page.currentPage ∧
    Inv count (runEvents iv count (ops.flatMap navEvents) s) := by
  induction ops generalizing s with
  | nil => exact ⟨rfl, h⟩
  | cons b ops ih =>
    have hsplit :
        runEvents iv count ((b :: ops).flatMap navEvents) s
          = runEvents iv count (ops.flatMap navEvents)
              (runEvents iv count (navEvents b) s) := by
      simp [runEvents, List.flatMap_cons, List.foldl_append]
    obtain ⟨he, hi⟩ := navEvents_step iv count b s h
    obtain ⟨he2, hi2⟩ := ih (runEvents iv count (navEvents b) s) hi
    rw [hsplit, he2, he]
    exact ⟨rfl, hi2⟩

/-- A rejected `scrollToPage` request performs no action at all. -/
lemma scrollToPageActions_rejected (count target : Int) (s : PageState)
    (h : target < 0 ∨ count ≤ target ∨ s.isScrolling = true) :
    scrollToPageActions count s target = [] := by
  unfold scrollToPageActions
  rcases h with h | h | h
  · rw [if_pos (Or.inl h)]
  · rw [if_pos (Or.inr h)]
  · split
    · rfl
    · simp [h]

/-- A committed `scrollToPage` request performs exactly the `onLeave`
call followed by the two state mutations. -/
lemma scrollToPageActions_committed (count target : Int) (s : PageState)
    (h0 : 0 ≤ target) (h1 : target < count) (h2 : s.isScrolling = false) :
    scrollToPageActions count s target
      = [Action.leave s.currentPage target, Action.setScrolling true,
         Action.setPage target] := by
  unfold scrollToPageActions
  rw [if_neg (by omega), if_neg (by simp [h2])]

/-! ## Claims -/

/-- C1: from the initial state with `count ≥ 1` pages, every sequence of
operations (API calls, wheel, keyboard, drag events, animation frames,
lock-release timers) keeps `currentPage` in `[0, count-1]`; and every
sequence of `next()`/`prev()` calls each issued after the prior
transition's duration has elapsed (the lock-release timer has fired)
lands `currentPage` exactly on the per-step-clamped accumulation of the
increments/decrements. -/
theorem C1_page_in_range_and_clamped_nav (isVertical : Bool) (count : Int)
    (hcount : 1 ≤ count) :
    (∀ evs : List Event,
      0 ≤ (runEvents isVertical count evs initState).page.currentPage ∧
      (runEvents isVertical count evs initState).page.currentPage
        ≤ count - 1) ∧
    (∀ ops : List Bool,
      (runNav isVertical count ops).page.currentPage
        = ops.foldl (clampStep count) 0) := by
  have hinv : Inv count initState := by
    constructor
    · show (0 : Int) ≤ 0
      exact le_refl 0
    · show (0 : Int) ≤ count - 1
      omega
  constructor
  · intro evs
    exact runEvents_inv isVertical count evs initState hinv
  · intro ops
    have h := (runNav_loop isVertical count ops initState hinv).1
    simpa [runNav, initState] using h

/-- Witness for C1 at `count = 3` with a concrete event sequence and a
concrete `next/next/next` run. -/
theorem C1_witness :
    (0 ≤ (runEvents true 3
        [Event.apiNext, Event.unlock, Event.wheel 0 45, Event.unlock,
         Event.apiNext] initState).page.currentPage ∧
      (runEvents true 3
        [Event.apiNext, Event.unlock, Event.wheel 0 45, Event.unlock,
         Event.apiNext] initState).page.currentPage ≤ 3 - 1) ∧
    (runNav true 3 [true, true, true]).page.currentPage
      = [true, true, true].foldl (clampStep 3) 0 :=
  ⟨(C1_page_in_range_and_clamped_nav true 3 (by decide)).1
      [Event.apiNext, Event.unlock, Event.wheel 0 45, Event.unlock,
       Event.apiNext],
   (C1_page_in_range_and_clamped_nav true 3 (by decide)).2
      [true, true, true]⟩

/-- C2: `goTo(target)` with `target` out of `[0, count-1]`, or called
while `isScrolling` holds, is a silent no-op: the state is unchanged
and no action (in particular no `onLeave` call) is performed. -/
theorem C2_rejected_goTo_is_noop (count target : Int) (s : PageState)
    (h : target < 0 ∨ count ≤ target ∨ s.isScrolling = true) :
    goTo count s target = s ∧ scrollToPageActions count s target = [] := by
  have hact := scrollToPageActions_rejected count target s h
  refine ⟨?_, hact⟩
  unfold goTo scrollToPage
  rw [hact]
  rfl

/-- Witness for C2: out-of-range target, and a locked state. -/
theorem C2_witness :
    (goTo 3 ⟨1, false⟩ 5 = ⟨1, false⟩ ∧
      scrollToPageActions 3 ⟨1, false⟩ 5 = []) ∧
    (goTo 3 ⟨1, true⟩ 2 = ⟨1, true⟩ ∧
      scrollToPageActions 3 ⟨1, true⟩ 2 = []) :=
  ⟨C2_rejected_goTo_is_noop 3 5 ⟨1, false⟩ (by right; left; decide),
   C2_rejected_goTo_is_noop 3 2 ⟨1, true⟩ (by right; right; rfl)⟩

/-- C3 counterexample: the code has no self-transition guard.  With two
pages, lock free, `currentPage = 0`, `goTo(0)` is NOT a no-op: it fires
`onLeave(0, 0)` and engages the transition lock. -/
theorem C3_counterexample :
    goTo 2 ⟨0, false⟩ 0 = ⟨0, true⟩ ∧
    scrollToPageActions 2 ⟨0, false⟩ 0
      = [Action.leave 0 0, Action.setScrolling true, Action.setPage 0] := by
  constructor <;> rfl

/-- C3 amended: `goTo(currentPage)` with the lock free and the page in
range commits a self-transition: it fires `onLeave(currentPage,
currentPage)` once, sets `isScrolling`, and leaves `currentPage`
unchanged. -/
theorem C3_amended_goTo_current_self_transition (count : Int)
    (s : PageState) (h0 : 0 ≤ s.currentPage) (h1 : s.currentPage < count)
    (h2 : s.isScrolling = false) :
    goTo count s s.currentPage = ⟨s.currentPage, true⟩ ∧
    scrollToPageActions count s s.currentPage
      = [Action.leave s.currentPage s.currentPage, Action.setScrolling true,
         Action.setPage s.currentPage] := by
  constructor
  · rw [goTo, scrollToPage_eq, if_neg (by omega), if_neg (by simp [h2])]
  · exact scrollToPageActions_committed count s.currentPage s h0 h1 h2

/-- Witness for the amended C3. -/
theorem C3_amended_witness :
    goTo 3 ⟨1, false⟩ 1 = ⟨1, true⟩ ∧
    scrollToPageActions 3 ⟨1, false⟩ 1
      = [Action.leave 1 1, Action.setScrolling true, Action.setPage 1] :=
  C3_amended_goTo_current_self_transition 3 ⟨1, false⟩ (by decide)
    (by decide) rfl

/-- C4: a committed transition performs exactly one `onLeave` call, with
origin the pre-mutation `currentPage` and destination the target, and
that call comes strictly before the `isScrolling` and `currentPage`
mutations (it is the head of the action trace); a rejected request
performs no `onLeave` call at all. -/
theorem C4_onLeave_once_before_mutation (count target : Int)
    (s : PageState) :
    (0 ≤ target → target < count → s.isScrolling = false →
      scrollToPageActions count s target
        = [Action.leave s.currentPage target, Action.setScrolling true,
           Action.setPage target]) ∧
    ((target < 0 ∨ count ≤ target ∨ s.isScrolling = true) →
      ∀ o d, Action.leave o d ∉ scrollToPageActions count s target) := by
  constructor
  · intro h0 h1 h2
    exact scrollToPageActions_committed count target s h0 h1 h2
  · intro h o d
    rw [scrollToPageActions_rejected count target s h]
    exact List.not_mem_nil _

/-- Witness for C4: a committed call from page 0 to page 2, and a
rejected out-of-range call. -/
theorem C4_witness :
    scrollToPageActions 3 ⟨0, false⟩ 2
      = [Action.leave 0 2, Action.setScrolling true, Action.setPage 2] ∧
    ∀ o d, Action.leave o d ∉ scrollToPageActions 3 ⟨0, false⟩ 5 :=
  ⟨(C4_onLeave_once_before_mutation 3 2 ⟨0, false⟩).1 (by decide)
      (by decide) rfl,
   (C4_onLeave_once_before_mutation 3 5 ⟨0, false⟩).2
      (by right; left; decide)⟩

/-- C5: the gesture-end decision.  Writing `delta` for the final
`liveDelta` and `elapsed = t_end - t_start ≥ 0`, the velocity divisor
`timeElapsed || 1` equals `max elapsed 1`, and: a committed gesture
(distance past `viewport * 0.15`, or velocity past `0.35` with distance
past `30`) resolves to advance exactly when `delta < 0` away from the
last page, to retreat exactly when `delta > 0` away from the first
page, and to cancel otherwise; a non-committed gesture always
cancels. -/
theorem C5_drag_end_decision (count currentPage : Int) (delta : ℚ)
    (timeElapsed : Int) (viewportSize : ℚ) (helapsed : 0 ≤ timeElapsed) :
    ((viewportSize * (15 / 100) < |delta| ∨
        ((35 : ℚ) / 100 < |delta| / ((max timeElapsed 1 : Int) : ℚ) ∧
          (30 : ℚ) < |delta|)) →
      (dragEndDecision count currentPage delta timeElapsed viewportSize
          = Decision.advance ↔ delta < 0 ∧ currentPage < count - 1) ∧
      (dragEndDecision count currentPage delta timeElapsed viewportSize
          = Decision.retreat ↔ 0 < delta ∧ 0 < currentPage) ∧
      (dragEndDecision count currentPage delta timeElapsed viewportSize
          = Decision.cancel ↔
        ¬(delta < 0 ∧ currentPage < count - 1) ∧
          ¬(0 < delta ∧ 0 < currentPage))) ∧
    (¬(viewportSize * (15 / 100) < |delta| ∨
        ((35 : ℚ) / 100 < |delta| / ((max timeElapsed 1 : Int) : ℚ) ∧
          (30 : ℚ) < |delta|)) →
      dragEndDecision count currentPage delta timeElapsed viewportSize
        = Decision.cancel) := by
  have hden : (if timeElapsed = 0 then (1 : ℚ) else (timeElapsed : ℚ))
      = ((max timeElapsed 1 : Int) : ℚ) := by
    split
    · rename_i h0
      subst h0
      norm_num
    · rename_i h0
      have hm : max timeElapsed 1 = timeElapsed := by omega
      rw [hm]
  unfold dragEndDecision
  rw [hden]
  constructor
  · intro hc
    rw [if_pos hc]
    by_cases h1 : delta < 0 ∧ currentPage < count - 1
    · have h2 : ¬(0 < delta ∧ 0 < currentPage) := by
        intro h2
        exact absurd h1.1 (not_lt.mpr (le_of_lt h2.1))
      simp [h1, h2]
    · by_cases h2 : 0 < delta ∧ 0 < currentPage
      · simp [h1, h2]
      · simp [h1, h2]
  · intro hc
    rw [if_neg hc]

/-- Witness for C5: the spec scenario — 3 pages, page 0, delta −200
over 100 ms in a 1000-unit viewport resolves to Advance. -/
theorem C5_witness :
    dragEndDecision 3 0 (-200) 100 1000 = Decision.advance :=
  ((C5_drag_end_decision 3 0 (-200) 100 1000 (by decide)).1
      (Or.inl (by rw [abs_of_neg (by norm_num : (-200 : ℚ) < 0)]
                  norm_num))).1.mpr
    (by constructor <;> norm_num)

/-- C6: resistance in `updateDragVisuals`.  For a move sample processed
during an active gesture, with raw delta the axis coordinate minus the
origin coordinate, the stored delta is `raw * 0.35` when on the first
page pulling positive or on the last page pulling negative, and the
raw delta unchanged in every other case. -/
theorem C6_edge_resistance (isVertical : Bool) (count currentPage : Int)
    (d : DragState) (x y : ℚ) (hdrag : d.isDragging = true)
    (hlatest : d.latestDragPos = Option.some (x, y)) :
    (((currentPage = 0 ∧ 0 < (if isVertical then y else x) - d.startPos) ∨
        (currentPage = count - 1 ∧
          (if isVertical then y else x) - d.startPos < 0)) →
      (updateDragVisuals isVertical count currentPage d).currentDelta
        = ((if isVertical then y else x) - d.startPos) * (35 / 100)) ∧
    (¬((currentPage = 0 ∧ 0 < (if isVertical then y else x) - d.startPos) ∨
        (currentPage = count - 1 ∧
          (if isVertical then y else x) - d.startPos < 0)) →
      (updateDragVisuals isVertical count currentPage d).currentDelta
        = (if isVertical then y else x) - d.startPos) := by
  have hval : (updateDragVisuals isVertical count currentPage d).currentDelta
      = effectiveDelta count currentPage
          ((if isVertical then y else x) - d.startPos) := by
    unfold updateDragVisuals
    rw [hlatest]
    simp [hdrag]
  rw [hval]
  unfold effectiveDelta
  constructor
  · intro h
    rw [if_pos h]
  · intro h
    rw [if_neg h]

/-- Witness for C6: on page 0 of 2 dragging from 500 to 700 the raw
+200 is resisted to `200 * 0.35`; dragging from 500 to 300 the raw
−200 passes through unresisted. -/
theorem C6_witness :
    (updateDragVisuals true 2 0
        ⟨true, 500, 0, 0, Option.some (0, 700), true⟩).currentDelta
      = ((if true then (700 : ℚ) else 0) - 500) * (35 / 100) ∧
    (updateDragVisuals true 2 0
        ⟨true, 500, 0, 0, Option.some (0, 300), true⟩).currentDelta
      = (if true then (300 : ℚ) else 0) - 500 :=
  ⟨(C6_edge_resistance true 2 0 ⟨true, 500, 0, 0, Option.some (0, 700), true⟩
      0 700 rfl rfl).1 (Or.inl (by constructor <;> norm_num)),
   (C6_edge_resistance true 2 0 ⟨true, 500, 0, 0, Option.some (0, 300), true⟩
      0 300 rfl rfl).2 (by norm_num)⟩

/-- C9: the wheel mapping.  With no gesture active and the lock free,
the axis delta is `deltaY` on a vertical layout and `deltaX` falling
back to `deltaY` on a horizontal one; the event calls `next()` exactly
when the delta exceeds 30, `prev()` exactly when it is below −30, and
does nothing otherwise — in particular ±30 are no-ops and 31 advances. -/
theorem C9_wheel_threshold (isVertical : Bool) (deltaX deltaY : ℚ) :
    (wheelAction isVertical false false deltaX deltaY
        = WheelAction.callNext ↔
      (30 : ℚ) < (if isVertical then deltaY
                  else if deltaX ≠ 0 then deltaX else deltaY)) ∧
    (wheelAction isVertical false false deltaX deltaY
        = WheelAction.callPrev ↔
      (if isVertical then deltaY
       else if deltaX ≠ 0 then deltaX else deltaY) < -30) ∧
    (wheelAction isVertical false false deltaX deltaY
        = WheelAction.noop ↔
      (-30 : ℚ) ≤ (if isVertical then deltaY
                   else if deltaX ≠ 0 then deltaX else deltaY) ∧
        (if isVertical then deltaY
         else if deltaX ≠ 0 then deltaX else deltaY) ≤ 30) ∧
    wheelAction true false false 0 31 = WheelAction.callNext ∧
    wheelAction true false false 0 30 = WheelAction.noop ∧
    wheelAction true false false 0 (-30) = WheelAction.noop := by
  have key : ∀ D : ℚ,
      ((if (30 : ℚ) < D then WheelAction.callNext
        else if D < (-30 : ℚ) then WheelAction.callPrev
        else WheelAction.noop) = WheelAction.callNext ↔ (30 : ℚ) < D) ∧
      ((if (30 : ℚ) < D then WheelAction.callNext
        else if D < (-30 : ℚ) then WheelAction.callPrev
        else WheelAction.noop) = WheelAction.callPrev ↔ D < (-30 : ℚ)) ∧
      ((if (30 : ℚ) < D then WheelAction.callNext
        else if D < (-30 : ℚ) then WheelAction.callPrev
        else WheelAction.noop) = WheelAction.noop ↔
        (-30 : ℚ) ≤ D ∧ D ≤ 30) := by
    intro D
    by_cases h1 : (30 : ℚ) < D
    · rw [if_pos h1]
      refine ⟨⟨fun _ => h1, fun _ => rfl⟩, ?_, ?_⟩
      · exact ⟨fun h => WheelAction.noConfusion h,
          fun h2 => absurd h1 (by linarith)⟩
      · exact ⟨fun h => WheelAction.noConfusion h,
          fun h2 => absurd h1 (not_lt.mpr h2.2)⟩
    · by_cases h2 : D < (-30 : ℚ)
      · rw [if_neg h1, if_pos h2]
        refine ⟨?_, ⟨fun _ => h2, fun _ => rfl⟩, ?_⟩
        · exact ⟨fun h => WheelAction.noConfusion h, fun h3 => absurd h3 h1⟩
        · exact ⟨fun h => WheelAction.noConfusion h,
            fun h3 => absurd h2 (not_lt.mpr h3.1)⟩
      · rw [if_neg h1, if_neg h2]
        refine ⟨?_, ?_, ?_⟩
        · exact ⟨fun h => WheelAction.noConfusion h, fun h3 => absurd h3 h1⟩
        · exact ⟨fun h => WheelAction.noConfusion h, fun h3 => absurd h3 h2⟩
        · exact ⟨fun _ => ⟨le_of_not_lt h2, le_of_not_lt h1⟩, fun _ => rfl⟩
  have main := key (if isVertical then deltaY
                    else if deltaX ≠ 0 then deltaX else deltaY)
  exact ⟨main.1, main.2.1, main.2.2, by norm_num [wheelAction],
    by norm_num [wheelAction], by norm_num [wheelAction]⟩

/-- The push loop of the children partition, with explicit
accumulators, equals filtering. -/
lemma partitionChildren_go (cs : List ChildNode) (a b : List ChildNode) :
    cs.foldl
      (fun p c =>
        if isSlide c then (p.1 ++ [c], p.2) else (p.1, p.2 ++ [c]))
      (a, b)
      = (a ++ cs.filter (fun c => isSlide c),
         b ++ cs.filter (fun c => ! isSlide c)) := by
  induction cs generalizing a b with
  | nil => simp
  | cons c cs ih =>
    by_cases h : isSlide c = true
    · simp [List.foldl_cons, h, ih, List.filter_cons]
    · simp [List.foldl_cons, h, ih, List.filter_cons]

/-- C10: `count` is the number of children that are valid elements
whose type carries the `isFullPageSection` flag (as `Section` sets on
itself); exactly those children form `slides` (in order), and every
other child is partitioned into `overlays`, so non-flagged children
contribute nothing to the navigable range. -/
theorem C10_count_is_flagged_children (cs : List ChildNode) :
    countOf cs = (cs.filter (fun c => isSlide c)).length ∧
    (partitionChildren cs).1 = cs.filter (fun c => isSlide c) ∧
    (partitionChildren cs).2 = cs.filter (fun c => ! isSlide c) ∧
    isSlide sectionChild = true := by
  have h := partitionChildren_go cs [] []
  unfold countOf partitionChildren
  unfold partitionChildren at h
  rw [h]
  exact ⟨by simp, by simp, by simp, rfl⟩

/-- C8: re-entrancy within the lock window.  From a state with the lock
free at time `t1` and a next page available, `next()` at `t1` commits
and schedules the lock release for `t1 + duration`; a second `next()`
at any `t2` within the window neither changes the page nor commits;
and the lock as observed at any time `t` is exactly `t < t1 +
duration` — a pure timer fact, independent of any rendering signal. -/
theorem C8_second_next_within_duration_dropped
    (count duration p lock0 t1 t2 : Int)
    (hfree : isScrollingAt ⟨p, lock0⟩ t1 = false)
    (hp0 : 0 ≤ p) (hp1 : p + 1 < count)
    (ht1 : t1 ≤ t2) (ht2 : t2 < t1 + duration) :
    nextAt count duration ⟨p, lock0⟩ t1 = (⟨p + 1, t1 + duration⟩, true) ∧
    nextAt count duration ⟨p + 1, t1 + duration⟩ t2
      = (⟨p + 1, t1 + duration⟩, false) ∧
    ∀ t : Int, isScrollingAt ⟨p + 1, t1 + duration⟩ t
      = decide (t < t1 + duration) := by
  refine ⟨?_, ?_, fun t => rfl⟩
  · unfold nextAt scrollToPageAt
    rw [if_neg (by simp; omega), hfree]
    simp
  · have hlock : isScrollingAt ⟨p + 1, t1 + duration⟩ t2 = true := by
      unfold isScrollingAt
      simp only [decide_eq_true_eq]
      omega
    unfold nextAt scrollToPageAt
    rw [hlock]
    split
    · rfl
    · simp

/-- Witness for C8: two pages, `duration = 700`, first `next()` at
`t = 0`, second at `t = 100`. -/
theorem C8_witness :
    nextAt 2 700 ⟨0, 0⟩ 0 = (⟨0 + 1, 0 + 700⟩, true) ∧
    nextAt 2 700 ⟨0 + 1, 0 + 700⟩ 100 = (⟨0 + 1, 0 + 700⟩, false) ∧
    ∀ t : Int, isScrollingAt ⟨0 + 1, 0 + 700⟩ t = decide (t < 0 + 700) :=
  C8_second_next_within_duration_dropped 2 700 0 0 0 100 rfl (by decide)
    (by decide) (by decide) (by decide)

/-- C7 counterexample: start a drag at `y = 0`, move to `y = -100`, and
end the gesture before the scheduled animation frame runs.  The most
recent move sample is `(0, -100)` and its resisted delta is `-100`,
but the `currentDelta` the gesture-end decision reads is still `0`
(`handleDragEnd` cancels the pending frame instead of flushing it), so
the final sample IS dropped from the decision: with the prescribed
value `-100` the decision would be Advance, with the actual `0` it is
Cancel. -/
theorem C7_counterexample :
    (runEvents true 2 [Event.dragStart 0 0 0 false, Event.dragMove 0 (-100)]
        initState).drag.latestDragPos = Option.some (0, -100) ∧
    (runEvents true 2 [Event.dragStart 0 0 0 false, Event.dragMove 0 (-100)]
        initState).drag.startPos = 0 ∧
    (runEvents true 2 [Event.dragStart 0 0 0 false, Event.dragMove 0 (-100)]
        initState).drag.currentDelta = 0 ∧
    effectiveDelta 2 0 (-100 - 0) = -100 ∧
    (0 : ℚ) ≠ -100 ∧
    dragEndDecision 2 0 (-100) 100 1000 = Decision.advance ∧
    dragEndDecision 2 0 0 100 1000 = Decision.cancel := by
  refine ⟨rfl, rfl, rfl, by norm_num [effectiveDelta], by norm_num, ?_, ?_⟩
  · have habs : |(-100 : ℚ)| = 100 := by
      rw [abs_of_neg (by norm_num : (-100 : ℚ) < 0)]
      norm_num
    simp only [dragEndDecision, habs]
    norm_num
  · simp only [dragEndDecision, abs_zero]
    norm_num

/-- C7 amended: `currentDelta` equals the resisted delta of the most
recent move sample *processed by an animation frame*: a `frame` step in
an active gesture recomputes it from the buffered latest sample, and
the gesture-end path reads `currentDelta` only — its outcome is
independent of whatever sample is still buffered in `latestDragPos`,
because the pending frame is cancelled rather than flushed. -/
theorem C7_amended_frame_processes_latest_sample (isVertical : Bool)
    (count : Int) (s : MachineState) (t : Int) (viewportSize x y : ℚ)
    (lp : Option (ℚ × ℚ))
    (hdrag : s.drag.isDragging = true)
    (hlatest : s.drag.latestDragPos = Option.some (x, y))
    (hraf : s.drag.rafPending = true) :
    (stepEvent isVertical count s Event.frame).drag.currentDelta
      = effectiveDelta count s.page.currentPage
          ((if isVertical then y else x) - s.drag.startPos) ∧
    (handleDragEnd count
        { s with drag := { s.drag with latestDragPos := lp } } t
        viewportSize).page
      = (handleDragEnd count s t viewportSize).page := by
  constructor
  · simp only [stepEvent, hraf, if_true]
    unfold updateDragVisuals
    rw [hlatest]
    simp [hdrag]
  · unfold handleDragEnd
    simp only [hdrag, if_true]
    cases hdec : dragEndDecision count s.page.currentPage
        s.drag.currentDelta (t - s.drag.startTime) viewportSize <;>
      simp [hdec, scrollToPageM]

/-- Witness for the amended C7 at the counterexample state. -/
theorem C7_amended_witness :
    (stepEvent true 2
        ⟨⟨0, false⟩, ⟨true, 0, 0, 0, Option.some (0, -100), true⟩⟩
        Event.frame).drag.currentDelta
      = effectiveDelta 2 0 ((if true then (-100 : ℚ) else 0) - 0) ∧
    (handleDragEnd 2 ⟨⟨0, false⟩, ⟨true, 0, 0, 0, Option.none, true⟩⟩
        100 1000).page
      = (handleDragEnd 2
          ⟨⟨0, false⟩, ⟨true, 0, 0, 0, Option.some (0, -100), true⟩⟩
          100 1000).page :=
  C7_amended_frame_processes_latest_sample true 2
    ⟨⟨0, false⟩, ⟨true, 0, 0, 0, Option.some (0, -100), true⟩⟩
    100 1000 0 (-100) Option.none rfl rfl rfl

end FullPageScroller
